import Mathlib

/-!
Shallow embedding of the ILI9328 SPI TFT driver (src/spytft/ili9328.py).

The driver talks to the display through a SPI bus handle and two sysfs
GPIO lines (chip-select, reset).  Every observable effect of the Python
methods is a sequence of bus or pin operations; we model a method as a
function returning the list of operations it performs, in order.

Conventions:
  - Chip-select and reset pins are active-low in the source
    (PIN_ACTIVE = b0, PIN_INACTIVE = b1).  We model a pin write with the
    logical levels: csSet true means the line is asserted (active),
    csSet false means de-asserted.
  - Machine bytes are Nat with explicit % 256 wherever numpy uint8
    storage wraps; 16-bit register values use explicit % 2^16 reasoning
    in theorems (Python int.to_bytes(2) raises for values outside
    [0, 2^16), and all values the driver sends fit).
-/

namespace Ili9328

/-- One observable bus or pin operation of the driver. -/
inductive BusOp where
  | spiOpen (bus dev speed mode : Nat)
  | spiClose
  | csSet (active : Bool)
  | rstSet (active : Bool)
  | sleep (ms : Nat)
  | spiWrite (bytes : List Nat)
deriving DecidableEq

/-- The instance fields set by the constructor of Ili9328Spi before
initialization runs (spi config plus fixed panel geometry).  The source
keeps the cs and reset sysfs paths as fields too; they only select which
physical line a pin write touches, so they are not needed here. -/
structure DriverState where
  spibus_num : Nat
  spidevice_num : Nat
  spi_speed_hz : Nat
  IMAGE_WIDTH : Int
  IMAGE_HEIGHT : Int
deriving DecidableEq

/-- Python regaddr.to_bytes(2, byteorder=big) for values in [0, 2^16):
big-endian high byte then low byte. -/
def toBytesBE2 (n : Nat) : List Nat :=
  [(n >>> 8) % 256, n % 256]

/-- Trace of Ili9328Spi.write_cmd: open and configure the spi device
(mode 3), then send the register-index frame [0x70, addr_hi, addr_lo]
bracketed by chip-select, then the register-data frame
[0x72, data_hi, data_lo] bracketed by chip-select, then close. -/
def write_cmd (st : DriverState) (regaddr data16 : Nat) : List BusOp :=
  [ BusOp.spiOpen st.spibus_num st.spidevice_num st.spi_speed_hz 3,
    BusOp.csSet true,
    BusOp.spiWrite (0x70 :: toBytesBE2 regaddr),
    BusOp.csSet false,
    BusOp.csSet true,
    BusOp.spiWrite (0x72 :: toBytesBE2 data16),
    BusOp.csSet false,
    BusOp.spiClose ]

/-- Trace of Ili9328Spi.write_gram: open and configure the spi device,
send the fixed GRAM-select frame [0x70, 0x00, 0x22] bracketed by
chip-select, then one bulk frame 0x72 :: bytes (np.insert prepends 0x72
to the flattened row-major pixel byte array) bracketed by chip-select,
then close. -/
def write_gram (st : DriverState) (bytes : List Nat) : List BusOp :=
  [ BusOp.spiOpen st.spibus_num st.spidevice_num st.spi_speed_hz 3,
    BusOp.csSet true,
    BusOp.spiWrite [0x70, 0x00, 0x22],
    BusOp.csSet false,
    BusOp.csSet true,
    BusOp.spiWrite (0x72 :: bytes),
    BusOp.csSet false,
    BusOp.spiClose ]

/-- One pixel of the conversion in block_image.  The source computes,
with numpy uint8 arithmetic (every intermediate stored mod 256):
red = r >> 3, green = g >> 2, blue = b >> 3, then
byte0 = (red << 3) | (green >> 3) and byte1 = blue | ((green & 7) << 5). -/
def packPixel (r g b : Nat) : Nat × Nat :=
  (((((r % 256) >>> 3) <<< 3) % 256 ||| ((g % 256) >>> 2) >>> 3) % 256,
   (((b % 256) >>> 3) ||| ((((g % 256) >>> 2) &&& 0x07) <<< 5) % 256) % 256)

/-- An input image: rows of 8-bit RGB triples, row-major, as produced by
np.array on a Pillow image. -/
abbrev Image := List (List (Nat × Nat × Nat))

/-- The two output bytes of one pixel, in order [byte0, byte1]. -/
def pixelBytes (p : Nat × Nat × Nat) : List Nat :=
  [(packPixel p.1 p.2.1 p.2.2).1, (packPixel p.1 p.2.1 p.2.2).2]

/-- Row-major flattening of the converted rgb565 array, exactly the byte
order spi.writebytes2 sees (C-order flatten of the height x width x 2
uint8 array). -/
def packImage (img : Image) : List Nat :=
  (img.map (fun row => (row.map pixelBytes).flatten)).flatten

/-- Width taken from the numpy shape: length of a row. -/
def imgWidth (img : Image) : Int :=
  ((img.headD []).length : Int)

/-- The four GRAM window coordinates block_image sends. -/
structure AddressWindow where
  x0 : Int
  y0 : Int
  x1 : Int
  y1 : Int
deriving DecidableEq

/-- The window arithmetic of block_image (source lines 134 to 146): the
start coordinates are clamped into the panel, and the end coordinates
are computed from the CLAMPED starts (the source rebinds x0 before
using it) and clamped again. -/
def blockWindow (panelW panelH x0 y0 width height : Int) : AddressWindow :=
  { x0 := min (max x0 0) (panelW - 1),
    y0 := min (max y0 0) (panelH - 1),
    x1 := min (max (min (max x0 0) (panelW - 1) + width - 1) 0) (panelW - 1),
    y1 := min (max (min (max y0 0) (panelH - 1) + height - 1) 0) (panelH - 1) }

/-- Trace of Ili9328Spi.block_image: convert the image, clamp the window,
write registers 0x20, 0x21, 0x50, 0x52 with the clamped start, 0x51 and
0x53 with the clamped end, then stream the packed bytes to GRAM. -/
def block_image (st : DriverState) (x0 y0 : Int) (img : Image) : List BusOp :=
  let w := blockWindow st.IMAGE_WIDTH st.IMAGE_HEIGHT x0 y0 (imgWidth img)
    ((img.length : Int))
  write_cmd st 0x20 w.x0.toNat ++ write_cmd st 0x21 w.y0.toNat ++
  write_cmd st 0x50 w.x0.toNat ++ write_cmd st 0x52 w.y0.toNat ++
  write_cmd st 0x51 w.x1.toNat ++ write_cmd st 0x53 w.y1.toNat ++
  write_gram st (packImage img)

/-- Trace of Ili9328Spi.image: delegates to block_image at origin (0,0). -/
def image (st : DriverState) (img : Image) : List BusOp :=
  block_image st 0 0 img

/-- Modelled from the spec words for the refinement claim about drawFull:
drawFull(buffer) is equivalent to drawRegion(0, 0, buffer). -/
def drawFull_spec (st : DriverState) (img : Image) : List BusOp :=
  block_image st 0 0 img

/-- One step of the fixed power-on script: either a register write or a
time.sleep (milliseconds). -/
inductive InitStep where
  | reg (addr val : Nat)
  | wait (ms : Nat)
deriving DecidableEq

/-- The fixed initialization register sequence of init_ili9328, in source
order, with the interleaved delays. -/
def initScript : List InitStep :=
  [ InitStep.reg 0x01 0x0100, InitStep.reg 0x02 0x0700,
    InitStep.reg 0x03 0x1030, InitStep.reg 0x04 0x0000,
    InitStep.reg 0x08 0x0207, InitStep.reg 0x09 0x0000,
    InitStep.reg 0x0A 0x0000, InitStep.reg 0x0C 0x0000,
    InitStep.reg 0x0D 0x0000, InitStep.reg 0x0F 0x0000,
    InitStep.reg 0x10 0x0000, InitStep.reg 0x11 0x0007,
    InitStep.reg 0x12 0x0000, InitStep.reg 0x13 0x0000,
    InitStep.reg 0x07 0x0001, InitStep.wait 200,
    InitStep.reg 0x10 0x1490, InitStep.reg 0x11 0x0227, InitStep.wait 50,
    InitStep.reg 0x12 0x001C, InitStep.wait 50,
    InitStep.reg 0x13 0x1A00, InitStep.reg 0x29 0x0025,
    InitStep.reg 0x2B 0x000C, InitStep.wait 50,
    InitStep.reg 0x20 0x0000, InitStep.reg 0x21 0x0000,
    InitStep.reg 0x30 0x0000, InitStep.reg 0x31 0x0506,
    InitStep.reg 0x32 0x0104, InitStep.reg 0x35 0x0207,
    InitStep.reg 0x36 0x000F, InitStep.reg 0x37 0x0306,
    InitStep.reg 0x38 0x0102, InitStep.reg 0x39 0x0707,
    InitStep.reg 0x3C 0x0702, InitStep.reg 0x3D 0x1604,
    InitStep.reg 0x50 0x0000, InitStep.reg 0x51 0x00EF,
    InitStep.reg 0x52 0x0000, InitStep.reg 0x53 0x013F,
    InitStep.reg 0x60 0xA700, InitStep.reg 0x61 0x0001,
    InitStep.reg 0x6A 0x0000,
    InitStep.reg 0x80 0x0000, InitStep.reg 0x81 0x0000,
    InitStep.reg 0x82 0x0000, InitStep.reg 0x83 0x0000,
    InitStep.reg 0x84 0x0000, InitStep.reg 0x85 0x0000,
    InitStep.reg 0x90 0x0010, InitStep.reg 0x92 0x0600,
    InitStep.reg 0x07 0x0133 ]

/-- The pin operations init_ili9328 performs before the register script:
set chip-select inactive, then pulse reset (inactive, 10ms, active,
10ms, inactive, 50ms settle). -/
def resetTrace : List BusOp :=
  [ BusOp.csSet false,
    BusOp.rstSet false, BusOp.sleep 10,
    BusOp.rstSet true, BusOp.sleep 10,
    BusOp.rstSet false, BusOp.sleep 50 ]

/-- Trace of one script step. -/
def stepTrace (st : DriverState) : InitStep → List BusOp
  | InitStep.reg a v => write_cmd st a v
  | InitStep.wait ms => [BusOp.sleep ms]

/-- Trace of Ili9328Spi.init_ili9328: pin setup and reset pulse, then the
fixed register script. -/
def init_ili9328 (st : DriverState) : List BusOp :=
  resetTrace ++ (initScript.map (stepTrace st)).flatten

/-- The field assignments of Ili9328Spi constructor, which all happen
before init_ili9328 is called (so they exist even when initialization
fails partway). -/
def initFields (spibus spidevice speed : Nat) : DriverState :=
  { spibus_num := spibus, spidevice_num := spidevice,
    spi_speed_hz := speed, IMAGE_WIDTH := 240, IMAGE_HEIGHT := 320 }

/-- Bus trace of constructing Ili9328Spi: the constructor only assigns
fields and then runs init_ili9328 once. -/
def constructTrace (spibus spidevice speed : Nat) : List BusOp :=
  init_ili9328 (initFields spibus spidevice speed)

/-- Number of register writes in a script. -/
def regCount : List InitStep → Nat
  | [] => 0
  | InitStep.reg _ _ :: rest => regCount rest + 1
  | InitStep.wait _ :: rest => regCount rest

/-- Run the script against a failure oracle: the oracle says whether the
i-th register write (a spi transaction) raises.  A raised exception in
Python aborts the constructor at that point; delays cannot fail. -/
def runInitWrites (fail : Nat → Bool) : List InitStep → Nat → Except Nat Nat
  | [], i => Except.ok i
  | InitStep.wait _ :: rest, i => runInitWrites fail rest i
  | InitStep.reg _ _ :: rest, i =>
      if fail i then Except.error i else runInitWrites fail rest (i + 1)

/-- Constructing the driver with a failure oracle: field assignment, then
the init script; the first failing write aborts construction with an
error, otherwise the fully initialized driver state is returned. -/
def construct (spibus spidevice speed : Nat) (fail : Nat → Bool) :
    Except Nat DriverState :=
  match runInitWrites fail initScript 0 with
  | Except.ok _ => Except.ok (initFields spibus spidevice speed)
  | Except.error i => Except.error i

/-- Whether an Except is a success. -/
def exceptOk {α : Type} : Except Nat α → Bool
  | Except.ok _ => true
  | Except.error _ => false

/-- The payloads of the spi data frames of a trace, in order: the framed
transactions observable on the bus. -/
def frames (t : List BusOp) : List (List Nat) :=
  t.filterMap (fun op =>
    match op with
    | BusOp.spiWrite bs => some bs
    | _ => none)

/-- Checks that every spi frame of the trace is bracketed by a
chip-select assert immediately before and a de-assert immediately after,
with no other bus traffic in between. -/
def framedOk : List BusOp → Bool
  | [] => true
  | BusOp.csSet true :: BusOp.spiWrite _ :: BusOp.csSet false :: rest =>
      framedOk rest
  | BusOp.spiWrite _ :: _ => false
  | BusOp.csSet true :: _ => false
  | _ :: rest => framedOk rest

/-- Counts register-write transactions in a frame list: an index frame
(3 bytes starting 0x70) immediately followed by a 3-byte data frame
starting 0x72.  The bulk GRAM stream of a multi-pixel image does not
match (its data frame is longer than 3 bytes). -/
def countRegWritePairs : List (List Nat) → Nat
  | f1 :: f2 :: rest =>
      if f1.length = 3 ∧ f1.headD 0 = 0x70 ∧ f2.length = 3 ∧ f2.headD 0 = 0x72
      then countRegWritePairs rest + 1
      else countRegWritePairs (f2 :: rest)
  | _ => 0

/-- Chip-select state after running a trace from a given state: the last
csSet of the trace wins. -/
def runCs (b : Bool) (t : List BusOp) : Bool :=
  t.foldl (fun s op =>
    match op with
    | BusOp.csSet v => v
    | _ => s) b

/-- Concrete 2 x 2 all-black test image. -/
def img2x2 : Image := [[(0, 0, 0), (0, 0, 0)], [(0, 0, 0), (0, 0, 0)]]

/-! ## Helper lemmas on the pixel packing -/

/-- The uint8 wrap in the first output byte never fires: checked over all
5-bit red and 6-bit green values. -/
theorem pack_byte0_no_wrap : ∀ r5 < 32, ∀ g6 < 64,
    ((r5 <<< 3) % 256 ||| g6 >>> 3) % 256 = (r5 <<< 3) ||| (g6 >>> 3) := by
  decide

/-- The uint8 wrap in the second output byte never fires: checked over
all 5-bit blue and 6-bit green values. -/
theorem pack_byte1_no_wrap : ∀ b5 < 32, ∀ g6 < 64,
    (b5 ||| ((g6 &&& 0x07) <<< 5) % 256) % 256 =
      b5 ||| ((g6 &&& 0x07) <<< 5) := by
  decide

/-- For 8-bit inputs packPixel equals the plain bit-layout formula with
no residual mod-256 wrapping. -/
theorem packPixel_formula (r g b : Nat) (hr : r < 256) (hg : g < 256)
    (hb : b < 256) :
    packPixel r g b =
      (((r >>> 3) <<< 3) ||| ((g >>> 2) >>> 3),
       (b >>> 3) ||| (((g >>> 2) &&& 0x07) <<< 5)) := by
  have h5 : r >>> 3 < 32 := by rw [Nat.shiftRight_eq_div_pow]; omega
  have h6 : g >>> 2 < 64 := by rw [Nat.shiftRight_eq_div_pow]; omega
  have hb5 : b >>> 3 < 32 := by rw [Nat.shiftRight_eq_div_pow]; omega
  unfold packPixel
  rw [Nat.mod_eq_of_lt hr, Nat.mod_eq_of_lt hg, Nat.mod_eq_of_lt hb]
  simp only [Prod.mk.injEq]
  exact ⟨pack_byte0_no_wrap _ h5 _ h6, pack_byte1_no_wrap _ hb5 _ h6⟩

/-- Shifting the packed high byte recovers the 5-bit red field. -/
theorem unpack_red : ∀ r5 < 32, ∀ g6 < 64,
    ((r5 <<< 3) ||| g6 >>> 3) >>> 3 = r5 := by
  decide

/-- Masking the packed low byte recovers the 5-bit blue field. -/
theorem unpack_blue : ∀ b5 < 32, ∀ g6 < 64,
    (b5 ||| ((g6 &&& 0x07) <<< 5)) &&& 0x1F = b5 := by
  decide

/-- Recombining the low 3 bits of the high byte with the high 3 bits of
the low byte recovers the 6-bit green field. -/
theorem unpack_green : ∀ r5 < 32, ∀ g6 < 64, ∀ b5 < 32,
    (((((r5 <<< 3) ||| g6 >>> 3)) &&& 0x07) <<< 3) |||
      ((b5 ||| ((g6 &&& 0x07) <<< 5)) >>> 5) = g6 := by
  decide

/-! ## Claim theorems -/

/-- C1: for every 8-bit RGB triple the conversion in block_image produces
exactly byte0 = ((R >> 3) << 3) | ((G >> 2) >> 3) and
byte1 = (B >> 3) | (((G >> 2) & 7) << 5); in particular white packs to
(0xFF, 0xFF), black to (0x00, 0x00) and (0x08, 0x04, 0x08) to
(0x08, 0x21). -/
theorem C1_pixel_pack_formula :
    (∀ r g b : Nat, r < 256 → g < 256 → b < 256 →
      packPixel r g b =
        (((r >>> 3) <<< 3) ||| ((g >>> 2) >>> 3),
         (b >>> 3) ||| (((g >>> 2) &&& 0x07) <<< 5))) ∧
    packPixel 0xFF 0xFF 0xFF = (0xFF, 0xFF) ∧
    packPixel 0x00 0x00 0x00 = (0x00, 0x00) ∧
    packPixel 0x08 0x04 0x08 = (0x08, 0x21) :=
  ⟨fun r g b hr hg hb => packPixel_formula r g b hr hg hb,
   by decide, by decide, by decide⟩

/-- Witness for C1 at the concrete triple (0x08, 0x04, 0x08). -/
theorem C1_pixel_pack_formula_witness :
    packPixel 0x08 0x04 0x08 =
      (((0x08 >>> 3) <<< 3) ||| ((0x04 >>> 2) >>> 3),
       (0x08 >>> 3) ||| (((0x04 >>> 2) &&& 0x07) <<< 5)) :=
  C1_pixel_pack_formula.1 0x08 0x04 0x08 (by decide) (by decide) (by decide)

/-- C2: the packed pair loses nothing beyond the initial channel
truncation: byte0 >> 3 recovers R >> 3, byte1 & 0x1F recovers B >> 3,
and the recombined green bits recover G >> 2 exactly. -/
theorem C2_pixel_pack_lossless (r g b : Nat) (hr : r < 256) (hg : g < 256)
    (hb : b < 256) :
    (packPixel r g b).1 >>> 3 = r >>> 3 ∧
    (packPixel r g b).2 &&& 0x1F = b >>> 3 ∧
    (((packPixel r g b).1 &&& 0x07) <<< 3) ||| ((packPixel r g b).2 >>> 5) =
      g >>> 2 := by
  have h5 : r >>> 3 < 32 := by rw [Nat.shiftRight_eq_div_pow]; omega
  have h6 : g >>> 2 < 64 := by rw [Nat.shiftRight_eq_div_pow]; omega
  have hb5 : b >>> 3 < 32 := by rw [Nat.shiftRight_eq_div_pow]; omega
  rw [packPixel_formula r g b hr hg hb]
  exact ⟨unpack_red _ h5 _ h6, unpack_blue _ hb5 _ h6,
    unpack_green _ h5 _ h6 _ hb5⟩

/-- Witness for C2 at the concrete triple (0xC8, 0x37, 0x12). -/
theorem C2_pixel_pack_lossless_witness :
    (packPixel 0xC8 0x37 0x12).1 >>> 3 = 0xC8 >>> 3 ∧
    (packPixel 0xC8 0x37 0x12).2 &&& 0x1F = 0x12 >>> 3 ∧
    (((packPixel 0xC8 0x37 0x12).1 &&& 0x07) <<< 3) |||
      ((packPixel 0xC8 0x37 0x12).2 >>> 5) = 0x37 >>> 2 :=
  C2_pixel_pack_lossless 0xC8 0x37 0x12 (by decide) (by decide) (by decide)

/-- C3 counterexample: for the requested origin (-5, 0) with a 50 x 50
buffer the code computes x1 = clamp(clamp(-5) + 49) = 49, not the
claimed clamp(-5 + 49) = 44: the horizontal end is computed from the
clamped start, not from the raw origin. -/
theorem C3_window_counterexample :
    ¬ ((blockWindow 240 320 (-5) 0 50 50).x1 =
        min (max ((-5 : Int) + 50 - 1) 0) 239) := by
  decide

/-- C3 (amended): block_image clamps the start coordinates into the
panel and computes each end coordinate from the CLAMPED start plus the
buffer extent, clamped again; for origins and extents that stay inside
the panel this coincides with the claimed independent clamping, and for
origin (20, 100) with a 200 x 150 buffer the window is
(20, 100, 219, 249). -/
theorem C3_window_clamped_start :
    (∀ x y w h : Int,
      blockWindow 240 320 x y w h =
        { x0 := min (max x 0) 239,
          y0 := min (max y 0) 319,
          x1 := min (max (min (max x 0) 239 + w - 1) 0) 239,
          y1 := min (max (min (max y 0) 319 + h - 1) 0) 319 }) ∧
    (∀ x y w h : Int, 0 ≤ x → 0 ≤ y → 1 ≤ w → 1 ≤ h →
      x + w ≤ 240 → y + h ≤ 320 →
      blockWindow 240 320 x y w h = ⟨x, y, x + w - 1, y + h - 1⟩) ∧
    blockWindow 240 320 20 100 200 150 = ⟨20, 100, 219, 249⟩ := by
  refine ⟨fun x y w h => rfl, fun x y w h hx hy hw hh hxe hye => ?_,
    by decide⟩
  simp only [blockWindow, AddressWindow.mk.injEq]
  refine ⟨?_, ?_, ?_, ?_⟩ <;> omega

/-- Witness for C3 at origin (20, 100) with a 200 x 150 buffer. -/
theorem C3_window_clamped_start_witness :
    blockWindow 240 320 20 100 200 150 = ⟨20, 100, 219, 249⟩ :=
  C3_window_clamped_start.2.1 20 100 200 150 (by decide) (by decide)
    (by decide) (by decide) (by decide) (by decide)

/-- C4 counterexample: for origin (-5, 310) with a 50 x 50 buffer the
vertical start clamps to 310, not 319, and the window is not a
degenerate single row (y1 differs from y0). -/
theorem C4_window_counterexample :
    ¬ ((blockWindow 240 320 (-5) 310 50 50).y0 = 319 ∧
       (blockWindow 240 320 (-5) 310 50 50).y1 =
         (blockWindow 240 320 (-5) 310 50 50).y0) := by
  decide

/-- C4 (amended): for origin (-5, 310) with a 50 x 50 buffer, x0 clamps
to 0, the vertical start clamps to min(max(310, 0), 319) = 310, the
vertical end clamps to 319, and the window spans 10 rows (the buffer is
silently cropped), not a degenerate single row. -/
theorem C4_window_at_neg_origin :
    blockWindow 240 320 (-5) 310 50 50 = ⟨0, 310, 49, 319⟩ ∧
    (blockWindow 240 320 (-5) 310 50 50).y1 -
      (blockWindow 240 320 (-5) 310 50 50).y0 + 1 = 10 := by
  decide

/-- C5 counterexample: on a 2 x 2 buffer at origin (0, 0) the bus trace
of block_image contains 6 register-write transactions before the pixel
stream, not the claimed 4. -/
theorem C5_counterexample :
    ¬ (countRegWritePairs
        (frames (block_image (initFields 1 0 500000) 0 0 img2x2)) = 4) := by
  decide

/-- C5 (amended): for every origin and buffer, block_image issues exactly
6 register writes, in order 0x20, 0x21, 0x50, 0x52 carrying the clamped
start and 0x51, 0x53 carrying the clamped end, followed by exactly one
GRAM stream (select frame then one bulk frame with all packed bytes);
every frame is chip-select bracketed and nothing else is on the bus:
the trace holds exactly 14 frames, and the 12 frames before the stream
form exactly 6 register-write transactions. -/
theorem C5_six_reg_writes_then_stream (st : DriverState) (x y : Int)
    (img : Image) :
    frames (block_image st x y img) =
      [ [0x70, 0x00, 0x20],
        0x72 :: toBytesBE2 (blockWindow st.IMAGE_WIDTH st.IMAGE_HEIGHT x y
          (imgWidth img) ((img.length : Int))).x0.toNat,
        [0x70, 0x00, 0x21],
        0x72 :: toBytesBE2 (blockWindow st.IMAGE_WIDTH st.IMAGE_HEIGHT x y
          (imgWidth img) ((img.length : Int))).y0.toNat,
        [0x70, 0x00, 0x50],
        0x72 :: toBytesBE2 (blockWindow st.IMAGE_WIDTH st.IMAGE_HEIGHT x y
          (imgWidth img) ((img.length : Int))).x0.toNat,
        [0x70, 0x00, 0x52],
        0x72 :: toBytesBE2 (blockWindow st.IMAGE_WIDTH st.IMAGE_HEIGHT x y
          (imgWidth img) ((img.length : Int))).y0.toNat,
        [0x70, 0x00, 0x51],
        0x72 :: toBytesBE2 (blockWindow st.IMAGE_WIDTH st.IMAGE_HEIGHT x y
          (imgWidth img) ((img.length : Int))).x1.toNat,
        [0x70, 0x00, 0x53],
        0x72 :: toBytesBE2 (blockWindow st.IMAGE_WIDTH st.IMAGE_HEIGHT x y
          (imgWidth img) ((img.length : Int))).y1.toNat,
        [0x70, 0x00, 0x22],
        0x72 :: packImage img ] ∧
    framedOk (block_image st x y img) = true ∧
    countRegWritePairs ((frames (block_image st x y img)).take 12) = 6 ∧
    (frames (block_image st x y img)).length = 14 :=
  ⟨rfl, rfl, rfl, rfl⟩

/-- C6: every write_cmd call produces exactly two chip-select bracketed
frames, first the address frame [0x70, addr_hi, addr_lo] and then the
data frame [0x72, val_hi, val_lo], big-endian, with nothing else on the
bus between them. -/
theorem C6_write_cmd_two_frames (st : DriverState) (a v : Nat)
    (ha : a < 65536) (hv : v < 65536) :
    frames (write_cmd st a v) =
      [[0x70, a >>> 8, a % 256], [0x72, v >>> 8, v % 256]] ∧
    framedOk (write_cmd st a v) = true ∧
    (a >>> 8) * 256 + a % 256 = a ∧
    (v >>> 8) * 256 + v % 256 = v := by
  have ha8 : a >>> 8 < 256 := by rw [Nat.shiftRight_eq_div_pow]; omega
  have hv8 : v >>> 8 < 256 := by rw [Nat.shiftRight_eq_div_pow]; omega
  refine ⟨?_, rfl, ?_, ?_⟩
  · have hfr : frames (write_cmd st a v) =
        [0x70 :: toBytesBE2 a, 0x72 :: toBytesBE2 v] := rfl
    rw [hfr]
    simp [toBytesBE2, Nat.mod_eq_of_lt ha8, Nat.mod_eq_of_lt hv8]
  · rw [Nat.shiftRight_eq_div_pow]; omega
  · rw [Nat.shiftRight_eq_div_pow]; omega

/-- Witness for C6 at register 0x20 with value 0x1234. -/
theorem C6_write_cmd_two_frames_witness :
    frames (write_cmd (initFields 1 0 500000) 0x20 0x1234) =
      [[0x70, 0x20 >>> 8, 0x20 % 256], [0x72, 0x1234 >>> 8, 0x1234 % 256]] ∧
    framedOk (write_cmd (initFields 1 0 500000) 0x20 0x1234) = true ∧
    (0x20 >>> 8) * 256 + 0x20 % 256 = 0x20 ∧
    (0x1234 >>> 8) * 256 + 0x1234 % 256 = 0x1234 :=
  C6_write_cmd_two_frames (initFields 1 0 500000) 0x20 0x1234
    (by decide) (by decide)

/-- C7: every write_gram call produces exactly two chip-select bracketed
transactions: the fixed GRAM-select frame [0x70, 0x00, 0x22], then one
bulk frame consisting of the start byte 0x72 followed by every byte of
the packed buffer, with no per-pixel framing and no padding. -/
theorem C7_write_gram_two_frames (st : DriverState) (bs : List Nat) :
    frames (write_gram st bs) = [[0x70, 0x00, 0x22], 0x72 :: bs] ∧
    framedOk (write_gram st bs) = true :=
  ⟨rfl, rfl⟩

/-- C8: image(buffer) produces exactly the bus traffic of
block_image(0, 0, buffer), the drawRegion call at the origin, as the
spec words of drawFull demand. -/
theorem C8_image_is_block_image_origin (st : DriverState) (img : Image) :
    image st img = drawFull_spec st img ∧
    image st img = block_image st 0 0 img :=
  ⟨rfl, rfl⟩

/-- Success of the script runner is exactly the absence of a failing
write among its register writes, counted from the starting index. -/
theorem runInitWrites_ok_iff (fail : Nat → Bool) :
    ∀ (l : List InitStep) (i : Nat),
      exceptOk (runInitWrites fail l i) = true ↔
        ∀ j, i ≤ j → j < i + regCount l → fail j = false := by
  intro l
  induction l with
  | nil =>
      intro i
      simp only [runInitWrites, exceptOk, regCount]
      constructor
      · intro _ j hj1 hj2
        omega
      · intro _
        trivial
  | cons s rest ih =>
      intro i
      cases s with
      | wait ms =>
          simpa only [runInitWrites, regCount] using ih i
      | reg a v =>
          by_cases hf : fail i = true
          · simp only [runInitWrites, hf, if_true, exceptOk, regCount]
            constructor
            · intro hcon
              cases hcon
            · intro h
              have := h i le_rfl (by omega)
              rw [hf] at this
              cases this
          · have hfi : fail i = false := by
              revert hf
              cases fail i <;> simp
            simp only [runInitWrites, hfi, Bool.false_eq_true, if_false,
              regCount]
            rw [ih (i + 1)]
            constructor
            · intro h j hj1 hj2
              rcases Nat.eq_or_lt_of_le hj1 with heq | hlt
              · exact heq ▸ hfi
              · exact h j hlt (by omega)
            · intro h j hj1 hj2
              exact h j (by omega) (by omega)

/-- C9 (amended): construction assigns the fields and then runs the
initialization sequence exactly once (its bus trace is one init trace);
the sequence has 49 register writes, and construction yields a driver
exactly when none of them fails, otherwise the error propagates out of
the constructor and no driver object is produced.  The source has no
readiness flag and no separate not-initialized error path. -/
theorem C9_construction_runs_init_once (bus dev speed : Nat)
    (fail : Nat → Bool) :
    constructTrace bus dev speed = init_ili9328 (initFields bus dev speed) ∧
    regCount initScript = 49 ∧
    (exceptOk (construct bus dev speed fail) = true ↔
      ∀ i < 49, fail i = false) := by
  refine ⟨rfl, rfl, ?_⟩
  have hok : exceptOk (construct bus dev speed fail) =
      exceptOk (runInitWrites fail initScript 0) := by
    unfold construct
    cases runInitWrites fail initScript 0 <;> rfl
  rw [hok, runInitWrites_ok_iff]
  have hc : regCount initScript = 49 := rfl
  rw [hc]
  constructor
  · intro h i hi
    exact h i (Nat.zero_le i) (by omega)
  · intro h j _ hj
    exact h j (by omega)

/-- C9 counterexample: with the 4th register write failing, construction
aborts with the propagated error (no driver is produced and nothing
records the failure in the fields), yet a draw call on the partially
constructed object state performs its full bus traffic: block_image has
no error outcome and emits frames unconditionally, so no subsequent call
fails with a not-initialized error. -/
theorem C9_counterexample :
    construct 1 0 500000 (fun i => decide (i = 3)) = Except.error 3 ∧
    frames (block_image (initFields 1 0 500000) 0 0 [[(0, 0, 0)]]) ≠ [] ∧
    (block_image (initFields 1 0 500000) 0 0 [[(0, 0, 0)]]).length = 56 := by
  refine ⟨rfl, by decide, rfl⟩

/-- C10: every bus-touching operation leaves chip-select de-asserted when
it returns, whatever the entry state of the line (so every assertion
inside is followed by a de-assertion), each spi frame of write_cmd and
write_gram is chip-select bracketed, and initialization drives the line
inactive as its very first operation, before any transaction. -/
theorem C10_chip_select_released (b : Bool) (st : DriverState) (a v : Nat)
    (bs : List Nat) (x y : Int) (img : Image) :
    runCs b (write_cmd st a v) = false ∧
    runCs b (write_gram st bs) = false ∧
    runCs b (init_ili9328 st) = false ∧
    runCs b (block_image st x y img) = false ∧
    runCs b (image st img) = false ∧
    framedOk (write_cmd st a v) = true ∧
    framedOk (write_gram st bs) = true ∧
    (init_ili9328 st).head? = some (BusOp.csSet false) :=
  ⟨rfl, rfl, rfl, rfl, rfl, rfl, rfl, rfl⟩

end Ili9328
